import Mathlib

/-
Verification of the document-registry service in `src/main.py`.

The program loads `documents.csv` with `csv.DictReader` (every cell a
string), builds three indexes (`documents_by_id`, `documents_by_status`,
`documents_by_pdf_path`) plus a precomputed `duplicates` view, and exposes
three handlers: `get_documents`, `get_duplicate_documents` and
`update_document`.  This file shallowly embeds those globals and handlers:
Python dicts become association lists with explicit insert-or-update
semantics, `defaultdict(list)` reads that insert a default are modelled by
an explicit state-returning access, exceptions become explicit outcome
values, and the mutable global state is threaded as a `ServerState`.
-/

set_option autoImplicit false

namespace PythonApi

/-- Python scalar values that occur as the `id` field: `csv.DictReader`
yields strings, while `Document.model_dump()` yields a Python `int`. -/
inductive PyVal where
  | int : Int → PyVal
  | str : String → PyVal
deriving DecidableEq, Repr

/-- A Python dict holding one document row/record.  In rows read from the
CSV the `id` value is a string; in records produced by
`updated_document.model_dump()` it is an int.  `pdf_path` and `status`
are strings in both. -/
structure DocRec where
  id : PyVal
  pdf_path : String
  status : String
deriving DecidableEq, Repr

/-- One row yielded by `csv.DictReader`: every field is a string
(`documents.append(row)` in the load loop). -/
structure CsvRow where
  id : String
  pdf_path : String
  status : String
deriving DecidableEq, Repr

/-- The dict that `csv.DictReader` yields for a row. -/
def csvRec (r : CsvRow) : DocRec :=
  ⟨PyVal.str r.id, r.pdf_path, r.status⟩

/-- Python dict lookup `d[k]` as an option: `none` models a raised
`KeyError`. -/
def dictGet? {α β : Type} [DecidableEq α] : List (α × β) → α → Option β
  | [], _ => none
  | kv :: d, k => if kv.1 = k then some kv.2 else dictGet? d k

/-- Python dict assignment `d[k] = v`: replaces the value of an existing
key in place (keeping its position), otherwise appends the new pair at the
end, exactly as insertion-ordered Python dicts do. -/
def dictSet {α β : Type} [DecidableEq α] : List (α × β) → α → β → List (α × β)
  | [], k, v => [(k, v)]
  | kv :: d, k, v => if kv.1 = k then (k, v) :: d else kv :: dictSet d k v

/-- The current bucket of a `defaultdict(list)`: the stored list when the
key is present, `[]` otherwise. -/
def bucketOf (d : List (String × List DocRec)) (k : String) : List DocRec :=
  (dictGet? d k).getD []

/-- Python `defaultdict(list).__getitem__`: returns the bucket, inserting an
empty one first when the key is missing (the insertion is the side effect
of reading a `defaultdict`).  Python's `dd[k].append(...)` and
`dd[k].remove(...)` mutate the bucket object returned by this read; their
net effect on the mapping is one `dictSet` of the new bucket. -/
def ddGetItem (d : List (String × List DocRec)) (k : String) :
    List DocRec × List (String × List DocRec) :=
  match dictGet? d k with
  | some b => (b, d)
  | none => ([], dictSet d k [])

/-- Python `list.remove(x)` when `x` is present: drops the first
occurrence. -/
def removeFirst : List DocRec → DocRec → List DocRec
  | [], _ => []
  | y :: ys, x => if y = x then ys else y :: removeFirst ys x

/-- The load loop `documents.append(row)` over `csv.DictReader(data)`:
appends each raw row dict. -/
def loadDocuments (rows : List CsvRow) : List DocRec :=
  rows.map csvRec

/-- Python `documents_by_id = {doc['id']: doc for doc in documents}` — a dict
comprehension, i.e. repeated dict assignment: a later row with the same
id silently overwrites an earlier one. -/
def documents_by_id (docs : List DocRec) : List (PyVal × DocRec) :=
  docs.foldl (fun d r => dictSet d r.id r) []

/-- The loop `for doc in documents: documents_by_status[doc["status"]].append(doc)`. -/
def documents_by_status (docs : List DocRec) : List (String × List DocRec) :=
  docs.foldl (fun d r => dictSet d r.status (bucketOf d r.status ++ [r])) []

/-- The loop `for doc in documents: documents_by_pdf_path[doc["pdf_path"]].append(doc)`. -/
def documents_by_pdf_path (docs : List DocRec) : List (String × List DocRec) :=
  docs.foldl (fun d r => dictSet d r.pdf_path (bucketOf d r.pdf_path ++ [r])) []

/-- Python `duplicates = {path: docs for path, docs in documents_by_pdf_path.items()
if len(docs) > 1}`.  The source dict has unique keys, so the comprehension
is an order-preserving filter. -/
def duplicatesView (byPath : List (String × List DocRec)) :
    List (String × List DocRec) :=
  byPath.filter (fun kv => decide (1 < kv.2.length))

/-- The module-level mutable globals of `main.py` after the load section. -/
structure ServerState where
  by_id : List (PyVal × DocRec)
  by_status : List (String × List DocRec)
  by_pdf_path : List (String × List DocRec)
  dups : List (String × List DocRec)
deriving DecidableEq, Repr

/-- The state the module-level code builds from the parsed CSV rows. -/
def buildState (rows : List CsvRow) : ServerState :=
  let docs := loadDocuments rows
  { by_id := documents_by_id docs
    by_status := documents_by_status docs
    by_pdf_path := documents_by_pdf_path docs
    dups := duplicatesView (documents_by_pdf_path docs) }

/-- The pydantic `Document` model: `id: int`, `pdf_path: str`,
`status: DocumentStatus`. -/
structure Doc where
  id : Int
  pdf_path : String
  status : String
deriving DecidableEq, Repr

/-- The literal type `DocumentStatus = Literal["SUCCEEDED", "NEEDS_REVIEW"]`. -/
def validStatus (s : String) : Bool :=
  s == "SUCCEEDED" || s == "NEEDS_REVIEW"

/-- pydantic's lax coercion of an `id` value to `int`: an int passes
through, a numeric string is parsed, anything else fails validation. -/
def parseId : PyVal → Option Int
  | PyVal.int n => some n
  | PyVal.str s => s.toInt?

/-- Validation `Document(**old_record)`: validates the raw record against the
`Document` model (coercing the id, checking the status literal);
`none` models a raised `ValidationError`. -/
def validateDocument (r : DocRec) : Option Doc :=
  match parseId r.id with
  | none => none
  | some n => if validStatus r.status then some ⟨n, r.pdf_path, r.status⟩ else none

/-- Handler for `GET /documents/status/{status}`: returns
`documents_by_status[status]`.  The subscript is a `defaultdict` read, so
it inserts an empty bucket when the status key is absent; the handler
performs no other state change. -/
def get_documents (s : ServerState) (status : String) :
    List DocRec × ServerState :=
  ((ddGetItem s.by_status status).1,
   { s with by_status := (ddGetItem s.by_status status).2 })

/-- Handler for `GET /documents/duplicates`: returns the precomputed `duplicates`
dict and touches nothing. -/
def get_duplicate_documents (s : ServerState) :
    List (String × List DocRec) × ServerState :=
  (s.dups, s)

/-- The ways `update_document` can terminate abnormally.  `keyError` and
`valueError` and `validationError` are uncaught Python exceptions (HTTP
500); `notFound` is the deliberate `HTTPException(404)`. -/
inductive UpdateError where
  | keyError
  | notFound
  | validationError
  | valueError
deriving DecidableEq, Repr

/-- The observable outcome of one `PATCH /documents/{id}` request. -/
inductive UpdateOutcome where
  | ok : Doc → UpdateOutcome
  | err : UpdateError → UpdateOutcome
deriving DecidableEq, Repr

/-- The test `old_record is None`.  Every value ever stored in
`documents_by_id` is a row/record dict (the load comprehension stores CSV
rows, the update handler stores `model_dump()` results), never Python
`None`, so on any value actually obtained from the dict this test is
`False`. -/
def recIsNone (_ : DocRec) : Bool := false

/-- Handler for `PATCH /documents/{id}` (`update_document` in `main.py`).  `id` is the
path parameter, already coerced to `int` by the framework; `patch` is the
`status` field of the `DocumentUpdate` body, `none` when the field was not
supplied (`model_dump(exclude_unset=True)` drops it).  The global state is
threaded even on error, since an exception leaves prior mutations in
place. -/
def update_document (s : ServerState) (id : Int) (patch : Option String) :
    UpdateOutcome × ServerState :=
  match dictGet? s.by_id (PyVal.int id) with
  | none => (UpdateOutcome.err UpdateError.keyError, s)
  | some old_record =>
    if recIsNone old_record then (UpdateOutcome.err UpdateError.notFound, s)
    else
      match validateDocument old_record with
      | none => (UpdateOutcome.err UpdateError.validationError, s)
      | some doc =>
        let updated : Doc := { doc with status := patch.getD doc.status }
        let new_record : DocRec :=
          ⟨PyVal.int updated.id, updated.pdf_path, updated.status⟩
        let oldBucket := bucketOf s.by_status old_record.status
        if old_record ∈ oldBucket then
          let afterRemove :=
            dictSet s.by_status old_record.status (removeFirst oldBucket old_record)
          let afterAppend :=
            dictSet afterRemove new_record.status
              (bucketOf afterRemove new_record.status ++ [new_record])
          (UpdateOutcome.ok updated,
            { s with
                by_status := afterAppend
                by_id := dictSet s.by_id new_record.id new_record })
        else
          (UpdateOutcome.err UpdateError.valueError,
            { s with by_status := dictSet s.by_status old_record.status oldBucket })

/-- The three-document scenario of spec §8. -/
def scenarioRows : List CsvRow :=
  [⟨"1", "a.pdf", "NEEDS_REVIEW"⟩, ⟨"2", "a.pdf", "SUCCEEDED"⟩,
   ⟨"3", "b.pdf", "SUCCEEDED"⟩]

example :
    (buildState scenarioRows).by_status =
      [("NEEDS_REVIEW", [csvRec ⟨"1", "a.pdf", "NEEDS_REVIEW"⟩]),
       ("SUCCEEDED", [csvRec ⟨"2", "a.pdf", "SUCCEEDED"⟩,
                      csvRec ⟨"3", "b.pdf", "SUCCEEDED"⟩])] := by decide

example :
    (buildState scenarioRows).dups =
      [("a.pdf", [csvRec ⟨"1", "a.pdf", "NEEDS_REVIEW"⟩,
                  csvRec ⟨"2", "a.pdf", "SUCCEEDED"⟩])] := by decide

example :
    (update_document (buildState scenarioRows) 1 (some "SUCCEEDED")).1 =
      UpdateOutcome.err UpdateError.keyError := by decide

theorem dictGet?_dictSet {α β : Type} [DecidableEq α]
    (d : List (α × β)) (k : α) (v : β) (k' : α) :
    dictGet? (dictSet d k v) k' = if k' = k then some v else dictGet? d k' := by
  induction d with
  | nil =>
    by_cases h : k' = k
    · simp [dictSet, dictGet?, h]
    · have h2 : ¬(k = k') := fun hh => h hh.symm
      simp [dictSet, dictGet?, h, h2]
  | cons kv d ih =>
    by_cases hk : kv.1 = k
    · by_cases h : k' = k
      · simp [dictSet, dictGet?, hk, h]
      · have h2 : ¬(k = k') := fun hh => h hh.symm
        have h3 : ¬(kv.1 = k') := fun hh => h2 (hk ▸ hh)
        simp [dictSet, dictGet?, hk, h, h2, h3]
    · by_cases h : k' = k
      · have h3 : ¬(kv.1 = k') := fun hh => hk (h ▸ hh)
        subst h
        simp [dictSet, dictGet?, hk, h3, ih]
      · simp [dictSet, dictGet?, hk, h, ih]

theorem bucketOf_dictSet (d : List (String × List DocRec)) (k : String)
    (b : List DocRec) (k' : String) :
    bucketOf (dictSet d k b) k' = if k' = k then b else bucketOf d k' := by
  by_cases h : k' = k <;> simp [bucketOf, dictGet?_dictSet, h]

theorem dictGet?_eq_none_of_keys {α β : Type} [DecidableEq α]
    (d : List (α × β)) (k : α) (h : ∀ kv ∈ d, kv.1 ≠ k) :
    dictGet? d k = none := by
  induction d with
  | nil => rfl
  | cons kv d ih =>
    have h1 := h kv (List.mem_cons_self kv d)
    simp only [dictGet?, if_neg h1]
    exact ih (fun kv' hkv' => h kv' (List.mem_cons_of_mem kv hkv'))

theorem mem_dictSet {α β : Type} [DecidableEq α]
    {d : List (α × β)} {k : α} {v : β} {kv : α × β}
    (h : kv ∈ dictSet d k v) : kv = (k, v) ∨ kv ∈ d := by
  induction d with
  | nil => simpa [dictSet] using h
  | cons kv' d ih =>
    by_cases hk : kv'.1 = k
    · simp only [dictSet, if_pos hk, List.mem_cons] at h
      rcases h with h | h
      · exact Or.inl h
      · exact Or.inr (List.mem_cons_of_mem _ h)
    · simp only [dictSet, if_neg hk, List.mem_cons] at h
      rcases h with h | h
      · exact Or.inr (by rw [h]; exact List.mem_cons_self _ _)
      · rcases ih h with h2 | h2
        · exact Or.inl h2
        · exact Or.inr (List.mem_cons_of_mem _ h2)

theorem keys_foldl_dictSet_id (P : PyVal → Prop) (docs : List DocRec) :
    ∀ (init : List (PyVal × DocRec)),
      (∀ kv ∈ init, P kv.1) → (∀ r ∈ docs, P r.id) →
      ∀ kv ∈ docs.foldl (fun d r => dictSet d r.id r) init, P kv.1 := by
  induction docs with
  | nil => intro init h1 _ kv hkv; exact h1 kv hkv
  | cons r docs ih =>
    intro init h1 h2 kv hkv
    simp only [List.foldl_cons] at hkv
    refine ih (dictSet init r.id r) ?_
      (fun r' hr' => h2 r' (List.mem_cons_of_mem r hr')) kv hkv
    intro kv' hkv'
    rcases mem_dictSet hkv' with h | h
    · rw [h]; exact h2 r (List.mem_cons_self r docs)
    · exact h1 kv' h

theorem by_id_key_isStr (rows : List CsvRow) :
    ∀ kv ∈ (buildState rows).by_id, ∃ t, kv.1 = PyVal.str t := by
  have hb : (buildState rows).by_id = documents_by_id (loadDocuments rows) := rfl
  rw [hb]
  refine keys_foldl_dictSet_id (fun k => ∃ t, k = PyVal.str t)
    (loadDocuments rows) [] ?_ ?_
  · intro kv h; exact absurd h (List.not_mem_nil kv)
  · intro r hr
    rcases List.mem_map.1 hr with ⟨row, _, hrow⟩
    exact ⟨row.id, by rw [← hrow]; rfl⟩

theorem by_id_int_lookup_none (rows : List CsvRow) (n : Int) :
    dictGet? (buildState rows).by_id (PyVal.int n) = none := by
  apply dictGet?_eq_none_of_keys
  intro kv hkv
  rcases by_id_key_isStr rows kv hkv with ⟨t, ht⟩
  rw [ht]
  intro hcontra
  simp at hcontra

/-- C5: `csv.DictReader` yields every field as a string, so
`documents_by_id` is keyed by string ids, while `update_document`
subscripts it with the integer path parameter.  Hence for every loaded
store, every id and every patch body, the lookup `documents_by_id[id]`
raises an uncaught `KeyError` (leaving the state untouched), and the
`old_record is None` guard — the only path to the 404 response — never
fires, in any state. -/
theorem patch_lookup_always_keyError (rows : List CsvRow) (id : Int)
    (patch : Option String) :
    update_document (buildState rows) id patch =
      (UpdateOutcome.err UpdateError.keyError, buildState rows) ∧
    (∀ kv ∈ (buildState rows).by_id, ∃ t, kv.1 = PyVal.str t) ∧
    ∀ (s : ServerState) (i : Int) (p : Option String),
      (update_document s i p).1 ≠ UpdateOutcome.err UpdateError.notFound := by
  refine ⟨?_, by_id_key_isStr rows, ?_⟩
  · unfold update_document
    rw [by_id_int_lookup_none]
  · intro s i p
    unfold update_document
    cases hg : dictGet? s.by_id (PyVal.int i) with
    | none => simp
    | some old =>
      simp only [recIsNone, Bool.false_eq_true, if_false]
      cases hv : validateDocument old with
      | none => simp
      | some doc =>
        by_cases hm : old ∈ bucketOf s.by_status old.status <;> simp [hm]

theorem patch_lookup_always_keyError_witness :
    update_document (buildState scenarioRows) 1 (some "SUCCEEDED") =
      (UpdateOutcome.err UpdateError.keyError, buildState scenarioRows) :=
  (patch_lookup_always_keyError scenarioRows 1 (some "SUCCEEDED")).1

/-- C1: the claim says an unknown id yields a 404 NotFound rather than an
unhandled fault.  Evaluating the code at the failing input — the loaded §8
scenario and `PATCH /documents/99` — shows the handler instead terminates
with the uncaught `KeyError` (an unhandled fault, HTTP 500); the state is
indeed left unchanged. -/
theorem patch_unknown_id_uncaught_keyError :
    update_document (buildState scenarioRows) 99 (some "SUCCEEDED") =
      (UpdateOutcome.err UpdateError.keyError, buildState scenarioRows) := by
  decide

/-- C2: the claim says that for a present id and a different valid status
the document moves buckets and gets the new status.  Evaluating the code
at the failing input: id 1 is present in the store (under the CSV string
key `"1"`), yet `PATCH /documents/1` with status `SUCCEEDED` dies with the
uncaught `KeyError` and no index changes. -/
theorem patch_present_id_uncaught_keyError :
    dictGet? (buildState scenarioRows).by_id (PyVal.str "1")
      = some (csvRec ⟨"1", "a.pdf", "NEEDS_REVIEW"⟩) ∧
    update_document (buildState scenarioRows) 1 (some "SUCCEEDED") =
      (UpdateOutcome.err UpdateError.keyError, buildState scenarioRows) := by
  decide

/-- C3: the claim says an updated state becomes visible through `by_id`,
`by_status` and `by_path` simultaneously.  Evaluating the code at the
failing input: `PATCH /documents/2` on the §8 scenario raises the uncaught
`KeyError` and leaves every index in its load-time state, so no updated
state is ever visible through any index. -/
theorem patch_updates_no_index :
    (update_document (buildState scenarioRows) 2 (some "NEEDS_REVIEW")).1 =
      UpdateOutcome.err UpdateError.keyError ∧
    (update_document (buildState scenarioRows) 2 (some "NEEDS_REVIEW")).2 =
      buildState scenarioRows := by
  decide

/-- C4: the claim says an update request with no status field returns the
current document unchanged.  Evaluating the code at the failing input:
`PATCH /documents/1` with an empty body on the §8 scenario raises the
uncaught `KeyError` instead of returning the document. -/
theorem patch_no_field_uncaught_keyError :
    update_document (buildState scenarioRows) 1 none =
      (UpdateOutcome.err UpdateError.keyError, buildState scenarioRows) := by
  decide

/-- C7: the claim says that after `update_status(1, "SUCCEEDED")` on the
§8 scenario the NEEDS_REVIEW bucket is `[]` and the SUCCEEDED bucket is
`[doc2, doc3, doc1]`.  Evaluating the code there: the update dies with the
uncaught `KeyError`, the NEEDS_REVIEW bucket still holds doc1 and the
SUCCEEDED bucket is still `[doc2, doc3]`. -/
theorem move_scenario_buckets_unchanged :
    (update_document (buildState scenarioRows) 1 (some "SUCCEEDED")).1 =
      UpdateOutcome.err UpdateError.keyError ∧
    bucketOf (update_document (buildState scenarioRows) 1
        (some "SUCCEEDED")).2.by_status "NEEDS_REVIEW" =
      [csvRec ⟨"1", "a.pdf", "NEEDS_REVIEW"⟩] ∧
    bucketOf (update_document (buildState scenarioRows) 1
        (some "SUCCEEDED")).2.by_status "SUCCEEDED" =
      [csvRec ⟨"2", "a.pdf", "SUCCEEDED"⟩, csvRec ⟨"3", "b.pdf", "SUCCEEDED"⟩] := by
  decide

theorem find?_split {α : Type} (l₁ l₂ : List α) (p : α → Bool) :
    (l₁ ++ l₂).find? p =
      match l₁.find? p with
      | some x => some x
      | none => l₂.find? p := by
  induction l₁ with
  | nil => simp [List.find?]
  | cons a l ih =>
    by_cases h : p a
    · simp [List.find?_cons_of_pos, h]
    · rw [List.cons_append, List.find?_cons_of_neg _ (by simp [h]),
        List.find?_cons_of_neg _ (by simp [h]), ih]

theorem foldl_dictSet_id_get (docs : List DocRec) :
    ∀ (init : List (PyVal × DocRec)) (k : PyVal),
      dictGet? (docs.foldl (fun d r => dictSet d r.id r) init) k =
        match docs.reverse.find? (fun r => decide (r.id = k)) with
        | some r => some r
        | none => dictGet? init k := by
  induction docs with
  | nil => intro init k; rfl
  | cons r docs ih =>
    intro init k
    simp only [List.foldl_cons, List.reverse_cons]
    rw [ih, find?_split]
    cases h : docs.reverse.find? (fun r => decide (r.id = k)) with
    | some x => rfl
    | none =>
      by_cases hr : r.id = k
      · simp [List.find?, hr, dictGet?_dictSet]
      · have h2 : ¬(k = r.id) := fun hh => hr hh.symm
        simp [List.find?, hr, h2, dictGet?_dictSet]

/-- C6 amended: loading never aborts — the id is kept as an unparsed
string, and a duplicate id is silently tolerated: for every id string `i`,
`documents_by_id` maps `i` to the LAST loaded row bearing it
(last-write-wins overwrite), not to a failure. -/
theorem load_duplicate_id_last_write_wins (rows : List CsvRow) (i : String) :
    dictGet? (buildState rows).by_id (PyVal.str i) =
      (rows.reverse.find? (fun r => decide (r.id = i))).map csvRec := by
  have hb : (buildState rows).by_id = documents_by_id (loadDocuments rows) := rfl
  rw [hb]
  unfold documents_by_id loadDocuments
  rw [foldl_dictSet_id_get, ← List.map_reverse]
  generalize rows.reverse = l
  induction l with
  | nil => rfl
  | cons r l ih =>
    by_cases hr : r.id = i
    · simp [List.find?, csvRec, hr]
    · simp only [List.map_cons]
      rw [List.find?_cons_of_neg _ (by simp [csvRec, hr]),
        List.find?_cons_of_neg _ (by simp [hr]), ih]

theorem load_duplicate_id_last_write_wins_witness :
    dictGet? (buildState scenarioRows).by_id (PyVal.str "2") =
      (scenarioRows.reverse.find? (fun r => decide (r.id = "2"))).map csvRec :=
  load_duplicate_id_last_write_wins scenarioRows "2"

/-- C6 counterexample: loading two rows that share the unparsable id
`"x"` does not fail; the comprehension silently keeps only the second row
under the raw string key — last-write-wins, contradicting the claim that
duplicate or unparsable ids abort the load and are never tolerated. -/
theorem load_duplicate_id_not_fatal :
    (buildState [⟨"x", "a.pdf", "SUCCEEDED"⟩, ⟨"x", "b.pdf", "NEEDS_REVIEW"⟩]).by_id =
      [(PyVal.str "x", csvRec ⟨"x", "b.pdf", "NEEDS_REVIEW"⟩)] := by
  decide

theorem mem_keys_dictSet {α β : Type} [DecidableEq α]
    (d : List (α × β)) (k : α) (v : β) {x : α}
    (h : x ∈ (dictSet d k v).map Prod.fst) : x = k ∨ x ∈ d.map Prod.fst := by
  rcases List.mem_map.1 h with ⟨kv, hkv, hx⟩
  rcases mem_dictSet hkv with h1 | h1
  · left; rw [← hx, h1]
  · right; exact List.mem_map.2 ⟨kv, h1, hx⟩

theorem nodup_keys_dictSet {α β : Type} [DecidableEq α]
    (d : List (α × β)) (k : α) (b : β) (h : (d.map Prod.fst).Nodup) :
    ((dictSet d k b).map Prod.fst).Nodup := by
  induction d with
  | nil => simp [dictSet]
  | cons kv d ih =>
    simp only [List.map_cons, List.nodup_cons] at h
    by_cases hk : kv.1 = k
    · simp only [dictSet, if_pos hk, List.map_cons, List.nodup_cons]
      exact ⟨hk ▸ h.1, h.2⟩
    · simp only [dictSet, if_neg hk, List.map_cons, List.nodup_cons]
      refine ⟨?_, ih h.2⟩
      intro hmem
      rcases mem_keys_dictSet d k b hmem with h1 | h1
      · exact hk h1
      · exact h.1 h1

theorem nodup_keys_by_path (docs : List DocRec) :
    ((documents_by_pdf_path docs).map Prod.fst).Nodup := by
  unfold documents_by_pdf_path
  have main : ∀ (init : List (String × List DocRec)), (init.map Prod.fst).Nodup →
      ((docs.foldl
          (fun d r => dictSet d r.pdf_path (bucketOf d r.pdf_path ++ [r]))
          init).map Prod.fst).Nodup := by
    induction docs with
    | nil => intro init h; exact h
    | cons r docs ih =>
      intro init h
      simp only [List.foldl_cons]
      exact ih _ (nodup_keys_dictSet init r.pdf_path _ h)
  exact main [] (by simp)

theorem dictGet?_filter_iff (l : List (String × List DocRec))
    (hnd : (l.map Prod.fst).Nodup) (p : String) (b : List DocRec) :
    dictGet? (l.filter (fun kv => decide (1 < kv.2.length))) p = some b ↔
      dictGet? l p = some b ∧ 1 < b.length := by
  induction l with
  | nil => simp [dictGet?]
  | cons kv l ih =>
    simp only [List.map_cons, List.nodup_cons] at hnd
    by_cases hk : kv.1 = p
    · by_cases hlen : 1 < kv.2.length
      · rw [List.filter_cons_of_pos (by simp [hlen])]
        simp only [dictGet?, if_pos hk]
        constructor
        · intro hb
          rcases Option.some_inj.1 hb with h
          exact ⟨hb, h ▸ hlen⟩
        · intro hb
          exact hb.1
      · rw [List.filter_cons_of_neg (by simp [hlen])]
        have hnone : dictGet? (l.filter (fun kv => decide (1 < kv.2.length))) p = none := by
          apply dictGet?_eq_none_of_keys
          intro kv' hkv'
          intro hcontra
          apply hnd.1
          rw [hk, ← hcontra]
          exact List.mem_map.2 ⟨kv', List.mem_of_mem_filter hkv', rfl⟩
        rw [hnone]
        simp only [dictGet?, if_pos hk]
        constructor
        · intro hb; cases hb
        · intro hb
          rcases Option.some_inj.1 hb.1 with h
          exact absurd (h ▸ hb.2) hlen
    · have step : dictGet? ((kv :: l).filter (fun kv => decide (1 < kv.2.length))) p =
          dictGet? (l.filter (fun kv => decide (1 < kv.2.length))) p := by
        by_cases hlen : 1 < kv.2.length
        · rw [List.filter_cons_of_pos (by simp [hlen])]
          simp only [dictGet?, if_neg hk]
        · rw [List.filter_cons_of_neg (by simp [hlen])]
      rw [step]
      simp only [dictGet?, if_neg hk]
      exact ih hnd.2

/-- C8: for every loaded store and every path `p`, the `duplicates` view
contains `p` exactly when the `by_path` bucket for `p` has more than one
member, and the sequence it maps `p` to is exactly that bucket. -/
theorem duplicates_iff_bucket_gt_one (rows : List CsvRow) (p : String)
    (b : List DocRec) :
    dictGet? (buildState rows).dups p = some b ↔
      dictGet? (buildState rows).by_pdf_path p = some b ∧ 1 < b.length := by
  have h1 : (buildState rows).dups =
      (documents_by_pdf_path (loadDocuments rows)).filter
        (fun kv => decide (1 < kv.2.length)) := rfl
  have h2 : (buildState rows).by_pdf_path =
      documents_by_pdf_path (loadDocuments rows) := rfl
  rw [h1, h2]
  exact dictGet?_filter_iff _ (nodup_keys_by_path _) p b

theorem duplicates_iff_bucket_gt_one_witness :
    dictGet? (buildState scenarioRows).dups "a.pdf" =
        some [csvRec ⟨"1", "a.pdf", "NEEDS_REVIEW"⟩,
              csvRec ⟨"2", "a.pdf", "SUCCEEDED"⟩] ↔
      dictGet? (buildState scenarioRows).by_pdf_path "a.pdf" =
        some [csvRec ⟨"1", "a.pdf", "NEEDS_REVIEW"⟩,
              csvRec ⟨"2", "a.pdf", "SUCCEEDED"⟩] ∧
      1 < [csvRec ⟨"1", "a.pdf", "NEEDS_REVIEW"⟩,
           csvRec ⟨"2", "a.pdf", "SUCCEEDED"⟩].length :=
  duplicates_iff_bucket_gt_one scenarioRows "a.pdf" _

theorem get_documents_fst (s : ServerState) (status : String) :
    (get_documents s status).1 = bucketOf s.by_status status := by
  unfold get_documents ddGetItem bucketOf
  cases h : dictGet? s.by_status status <;> simp

/-- C9: `list_by_status` returns the current contents of the
corresponding `by_status` bucket; a valid-but-never-populated status has
no stored bucket and yields the empty sequence (`none` case of the
lookup), not an error — reads over absent buckets are total. -/
theorem list_by_status_returns_bucket (s : ServerState) (status : String) :
    (get_documents s status).1 = (dictGet? s.by_status status).getD [] :=
  get_documents_fst s status

theorem list_by_status_returns_bucket_witness :
    (get_documents (buildState scenarioRows) "SUCCEEDED").1 =
      (dictGet? (buildState scenarioRows).by_status "SUCCEEDED").getD [] :=
  list_by_status_returns_bucket (buildState scenarioRows) "SUCCEEDED"

/-- States with the same observable index contents: equal `by_id` dicts,
pointwise-equal status buckets (through a `defaultdict` a missing key and
an empty stored bucket are indistinguishable), and equal path index and
duplicates view. -/
def observEquiv (s t : ServerState) : Prop :=
  s.by_id = t.by_id ∧
  (∀ k, bucketOf s.by_status k = bucketOf t.by_status k) ∧
  s.by_pdf_path = t.by_pdf_path ∧
  s.dups = t.dups

theorem observEquiv_refl (s : ServerState) : observEquiv s s :=
  ⟨rfl, fun _ => rfl, rfl, rfl⟩

theorem get_documents_snd_observEquiv (s : ServerState) (status : String) :
    observEquiv (get_documents s status).2 s := by
  refine ⟨rfl, ?_, rfl, rfl⟩
  intro k
  show bucketOf (ddGetItem s.by_status status).2 k = bucketOf s.by_status k
  unfold ddGetItem
  cases h : dictGet? s.by_status status with
  | some b => rfl
  | none =>
    show bucketOf (dictSet s.by_status status []) k = bucketOf s.by_status k
    rw [bucketOf_dictSet]
    by_cases hk : k = status
    · rw [if_pos hk, hk]
      unfold bucketOf
      rw [h]
      rfl
    · rw [if_neg hk]

theorem bucketOf_dictSet_congr (d e : List (String × List DocRec))
    (hde : ∀ k, bucketOf d k = bucketOf e k) (ks : String) (b : List DocRec) :
    ∀ k, bucketOf (dictSet d ks b) k = bucketOf (dictSet e ks b) k := by
  intro k
  rw [bucketOf_dictSet, bucketOf_dictSet]
  by_cases hk : k = ks
  · rw [if_pos hk, if_pos hk]
  · rw [if_neg hk, if_neg hk, hde]

theorem update_document_eq (s : ServerState) (id : Int) (patch : Option String) :
    update_document s id patch =
      match dictGet? s.by_id (PyVal.int id) with
      | none => (UpdateOutcome.err UpdateError.keyError, s)
      | some old =>
        match validateDocument old with
        | none => (UpdateOutcome.err UpdateError.validationError, s)
        | some doc =>
          if old ∈ bucketOf s.by_status old.status then
            (UpdateOutcome.ok { doc with status := patch.getD doc.status },
             { s with
                 by_status :=
                   dictSet
                     (dictSet s.by_status old.status
                       (removeFirst (bucketOf s.by_status old.status) old))
                     (patch.getD doc.status)
                     (bucketOf
                       (dictSet s.by_status old.status
                         (removeFirst (bucketOf s.by_status old.status) old))
                       (patch.getD doc.status) ++
                      [⟨PyVal.int doc.id, doc.pdf_path, patch.getD doc.status⟩])
                 by_id := dictSet s.by_id (PyVal.int doc.id)
                     ⟨PyVal.int doc.id, doc.pdf_path, patch.getD doc.status⟩ })
          else
            (UpdateOutcome.err UpdateError.valueError,
             { s with by_status :=
                 (dictSet s.by_status old.status
                   (bucketOf s.by_status old.status)) }) := by
  unfold update_document
  cases hg : dictGet? s.by_id (PyVal.int id) with
  | none => rfl
  | some old =>
    simp only [recIsNone, Bool.false_eq_true, if_false]

theorem update_document_congr (s t : ServerState) (h : observEquiv s t)
    (id : Int) (patch : Option String) :
    (update_document s id patch).1 = (update_document t id patch).1 ∧
    observEquiv (update_document s id patch).2 (update_document t id patch).2 := by
  obtain ⟨hid, hbs, hpath, hdup⟩ := h
  rw [update_document_eq, update_document_eq, hid]
  cases hg : dictGet? t.by_id (PyVal.int id) with
  | none => exact ⟨rfl, hid, hbs, hpath, hdup⟩
  | some old =>
    dsimp only
    cases hv : validateDocument old with
    | none => exact ⟨rfl, hid, hbs, hpath, hdup⟩
    | some doc =>
      dsimp only
      rw [hbs old.status]
      by_cases hm : old ∈ bucketOf t.by_status old.status
      · rw [if_pos hm, if_pos hm]
        refine ⟨rfl, rfl, ?_, hpath, hdup⟩
        have h1 : ∀ k,
            bucketOf (dictSet s.by_status old.status
              (removeFirst (bucketOf t.by_status old.status) old)) k =
            bucketOf (dictSet t.by_status old.status
              (removeFirst (bucketOf t.by_status old.status) old)) k :=
          bucketOf_dictSet_congr _ _ hbs old.status _
        intro k
        rw [bucketOf_dictSet]
        conv_rhs => rw [bucketOf_dictSet]
        simp only [h1]
      · rw [if_neg hm, if_neg hm]
        exact ⟨rfl, rfl, bucketOf_dictSet_congr _ _ hbs old.status _, hpath, hdup⟩

/-- C10: the query handlers are pure reads.  `get_documents` leaves the
observable contents of every index unchanged (its only state effect is
the `defaultdict` inserting an unobservable empty bucket), and
`get_duplicate_documents` leaves the state literally unchanged; moreover
observable equality is a bisimulation: any two observably equal states
give every subsequent operation — either query or the PATCH update — the
same result and observably equal successor states. -/
theorem queries_are_pure_reads (s : ServerState) (status : String) :
    observEquiv (get_documents s status).2 s ∧
    (get_duplicate_documents s).2 = s ∧
    ∀ t u : ServerState, observEquiv t u →
      (∀ st, (get_documents t st).1 = (get_documents u st).1) ∧
      (get_duplicate_documents t).1 = (get_duplicate_documents u).1 ∧
      ∀ (i : Int) (p : Option String),
        (update_document t i p).1 = (update_document u i p).1 ∧
        observEquiv (update_document t i p).2 (update_document u i p).2 := by
  refine ⟨get_documents_snd_observEquiv s status, rfl, ?_⟩
  intro t u h
  refine ⟨?_, h.2.2.2, fun i p => update_document_congr t u h i p⟩
  intro st
  rw [get_documents_fst, get_documents_fst]
  exact h.2.1 st

theorem queries_are_pure_reads_witness :
    observEquiv (get_documents (buildState scenarioRows) "NEEDS_REVIEW").2
      (buildState scenarioRows) :=
  (queries_are_pure_reads (buildState scenarioRows) "NEEDS_REVIEW").1

end PythonApi
